import Mathlib

/-
Verification of the tpolls-api reconciliation core: a shallow embedding of
the PollSync / BlockchainVote / AiGeneratedPoll / BlockchainPoll mongoose
models and the blockchain sync service sweeps, with theorems settling the
spec's claims about them.

Conventions of the embedding:
 * JavaScript `Date` values are milliseconds-since-epoch, modelled as `Nat`;
   `Date.now()` / `new Date()` is passed in explicitly as a `now` parameter.
 * Absent / null document fields are `Option`.
 * Mongo queries over a collection are modelled as a per-record boolean
   filter over a `List` of records; the `for ... of` loops of the sweeps are
   modelled as a `List.map` that rewrites exactly the records matched by the
   query's filter and leaves every other record unchanged.  The `.sort`
   clauses of the queries only affect processing order, which no claim
   depends on, so they are not modelled.
 * JavaScript truthiness on numbers (`!x`) is `x = 0`, on strings `x = ""`,
   on nullable fields `x = none`.
-/

namespace TPolls

/-- `syncStatus` enum of the PollSync schema. -/
inductive SyncStatus where
  | pending
  | registering
  | registered
  | syncing
  | synced
  | failed
  | cancelled
deriving DecidableEq, Repr

/-- Error `type` enum of PollSync's `errors` entries. -/
inductive SyncErrorKind where
  | registration
  | sync
  | validation
  | network
deriving DecidableEq, Repr

/-- One entry of PollSync's bounded `errors` log. -/
structure SyncError where
  kind : SyncErrorKind
  message : String
  timestamp : Nat
  resolved : Bool
deriving DecidableEq, Repr

/-- PollSync's `retryConfig` subdocument (schema defaults: multiplier 2,
max delay 3600000 ms, base delay 60000 ms). -/
structure RetryConfig where
  backoffMultiplier : Nat
  maxRetryDelay : Nat
  baseRetryDelay : Nat
deriving DecidableEq, Repr

/-- The PollSync document (src/src/models/PollSync.js): one Draft's
registration-attempt bookkeeping record.  `id` stands for the mongo `_id`,
`aiPollId` for the owning-draft reference. -/
structure PollSync where
  id : Nat
  aiPollId : Nat
  blockchainPollId : Option Int
  syncStatus : SyncStatus
  registrationAttempts : Nat
  maxRegistrationAttempts : Nat
  registrationTxHash : Option String
  registrationTxPayload : Option String
  contractAddress : Option String
  lastAttemptAt : Option Nat
  registeredAt : Option Nat
  lastSyncAt : Option Nat
  nextRetryAt : Option Nat
  errors : List SyncError
  retryConfig : RetryConfig
  createdAt : Nat
  updatedAt : Nat
deriving DecidableEq, Repr

/-- Virtual `canRetry` (PollSync.js:161-165): attempts below the record's
configured maximum, status `failed`, and no retry delay still pending. -/
def PollSync.canRetry (s : PollSync) (now : Nat) : Bool :=
  decide (s.registrationAttempts < s.maxRegistrationAttempts) &&
  decide (s.syncStatus = .failed) &&
  (match s.nextRetryAt with
   | none => true
   | some t => decide (t ≤ now))

/-- Virtual `isExpired` (PollSync.js:167-169). -/
def PollSync.isExpired (s : PollSync) : Bool :=
  decide (s.maxRegistrationAttempts ≤ s.registrationAttempts)

/-- Virtual `currentRetryDelay` (PollSync.js:171-178):
`min(baseDelay * multiplier ^ registrationAttempts, maxDelay)`. -/
def PollSync.currentRetryDelay (s : PollSync) : Nat :=
  min (s.retryConfig.baseRetryDelay *
        s.retryConfig.backoffMultiplier ^ s.registrationAttempts)
      s.retryConfig.maxRetryDelay

/-- Method `addError` (PollSync.js:181-196): push an entry and keep only the
last 20 (`errors.slice(-20)`). -/
def PollSync.addError (s : PollSync) (kind : SyncErrorKind) (message : String)
    (now : Nat) : PollSync :=
  let errs := s.errors ++ [⟨kind, message, now, false⟩]
  let errs := if 20 < errs.length then errs.drop (errs.length - 20) else errs
  { s with errors := errs, updatedAt := now }

/-- Method `incrementAttempt` (PollSync.js:206-219): bump the counter and
stamp `lastAttemptAt`; if the new counter has reached the record's maximum,
pin status `failed` with `nextRetryAt` cleared, otherwise set status `failed`
with `nextRetryAt = now + currentRetryDelay` (computed from the already
incremented counter, as in the source). -/
def PollSync.incrementAttempt (s : PollSync) (now : Nat) : PollSync :=
  let s' := { s with registrationAttempts := s.registrationAttempts + 1,
                     lastAttemptAt := some now }
  if s'.maxRegistrationAttempts ≤ s'.registrationAttempts then
    { s' with syncStatus := .failed, nextRetryAt := none, updatedAt := now }
  else
    { s' with syncStatus := .failed,
              nextRetryAt := some (now + s'.currentRetryDelay),
              updatedAt := now }

/-- Method `markRegistering` (PollSync.js:221-227). -/
def PollSync.markRegistering (s : PollSync) (txPayload contractAddress : String)
    (now : Nat) : PollSync :=
  { s with syncStatus := .registering,
           registrationTxPayload := some txPayload,
           contractAddress := some contractAddress,
           lastAttemptAt := some now,
           updatedAt := now }

/-- Method `markRegistered` (PollSync.js:229-236). -/
def PollSync.markRegistered (s : PollSync) (blockchainPollId : Int)
    (txHash : String) (now : Nat) : PollSync :=
  { s with syncStatus := .registered,
           blockchainPollId := some blockchainPollId,
           registrationTxHash := some txHash,
           registeredAt := some now,
           nextRetryAt := none,
           updatedAt := now }

/-- Per-record filter of the static `findPendingRegistration` query
(PollSync.js:253-263): status `pending` or `failed`, `nextRetryAt` absent,
null, or `≤ now`, and `registrationAttempts < 3` — the literal `3` of the
query, not the record's `maxRegistrationAttempts`. -/
def pendingRegistrationFilter (s : PollSync) (now : Nat) : Bool :=
  (decide (s.syncStatus = .pending) || decide (s.syncStatus = .failed)) &&
  (match s.nextRetryAt with
   | none => true
   | some t => decide (t ≤ now)) &&
  decide (s.registrationAttempts < 3)

/-- Loop body of `processPendingRegistrations`
(blockchainSyncService.js:132-160) for one query-selected record:
skip it when `canRetry` is false; log a validation error when the populated
`aiPollId` draft is missing; otherwise `incrementAttempt`.
`aiExists` models whether `populate('aiPollId')` found the owning draft. -/
def processOnePollSync (aiExists : Nat → Bool) (now : Nat) (s : PollSync) :
    PollSync :=
  if !(s.canRetry now) then s
  else if !(aiExists s.aiPollId) then
    s.addError .validation ("AI poll not found") now
  else
    s.incrementAttempt now

/-- Effect of one run of `processPendingRegistrations`
(blockchainSyncService.js:127-166) on a single stored record: records
matched by `findPendingRegistration` go through the loop body, all others
are untouched. -/
def regSweepStep (aiExists : Nat → Bool) (now : Nat) (s : PollSync) :
    PollSync :=
  if pendingRegistrationFilter s now then processOnePollSync aiExists now s
  else s

/-- One run of `processPendingRegistrations` over the whole collection. -/
def processPendingRegistrations (aiExists : Nat → Bool) (now : Nat)
    (store : List PollSync) : List PollSync :=
  store.map (regSweepStep aiExists now)

/-- `status` enum of the BlockchainVote schema. -/
inductive VoteStatus where
  | pending
  | confirmed
  | counted
  | rewarded
  | failed
  | invalid
deriving DecidableEq, Repr

/-- One entry of BlockchainVote's bounded `validationErrors` / `syncErrors`
logs: error text and timestamp. -/
structure VoteError where
  error : String
  timestamp : Nat
deriving DecidableEq, Repr

/-- The BlockchainVote document (src/src/models/BlockchainVote.js): one
voter's submission against one on-chain poll.  Schema defaults:
`status = pending`, `confirmations = 0`, `requiredConfirmations = 3`,
`isValid = true`. -/
structure BlockchainVote where
  voteId : String
  blockchainPollId : Int
  voterAddress : String
  selectedOptionId : Int
  txHash : Option String
  blockHeight : Option Nat
  txTimestamp : Option Nat
  status : VoteStatus
  confirmations : Nat
  requiredConfirmations : Nat
  confirmedAt : Option Nat
  rewardAmount : Option String
  rewardTxHash : Option String
  rewardClaimedAt : Option Nat
  isValid : Bool
  validationErrors : List VoteError
  syncErrors : List VoteError
  lastSyncedAt : Nat
  createdAt : Nat
  updatedAt : Nat
deriving DecidableEq, Repr

/-- Virtual `isConfirmed` (BlockchainVote.js:175-177): note that it requires
`status === 'confirmed'`, not `'pending'`. -/
def BlockchainVote.isConfirmed (v : BlockchainVote) : Bool :=
  decide (v.requiredConfirmations ≤ v.confirmations) &&
  decide (v.status = .confirmed)

/-- Virtual `isPending` (BlockchainVote.js:179-181). -/
def BlockchainVote.isPending (v : BlockchainVote) : Bool :=
  decide (v.status = .pending) &&
  decide (v.confirmations < v.requiredConfirmations)

/-- Method `addValidationError` (BlockchainVote.js:192-206): push an entry,
keep the last 5, and unconditionally set `isValid = false` and
`status = 'invalid'`. -/
def BlockchainVote.addValidationError (v : BlockchainVote) (error : String)
    (now : Nat) : BlockchainVote :=
  let errs := v.validationErrors ++ [⟨error, now⟩]
  let errs := if 5 < errs.length then errs.drop (errs.length - 5) else errs
  { v with validationErrors := errs,
           isValid := false,
           status := .invalid,
           updatedAt := now }

/-- Method `addSyncError` (BlockchainVote.js:208-220): push an entry and keep
the last 5. -/
def BlockchainVote.addSyncError (v : BlockchainVote) (error : String)
    (now : Nat) : BlockchainVote :=
  let errs := v.syncErrors ++ [⟨error, now⟩]
  let errs := if 5 < errs.length then errs.drop (errs.length - 5) else errs
  { v with syncErrors := errs, updatedAt := now }

/-- Method `updateConfirmations` (BlockchainVote.js:222-234): when both
heights are truthy (non-zero), record the transaction block height and set
`confirmations = max(0, currentBlockHeight - blockHeight + 1)` (the `Nat`
expression `currentBlockHeight + 1 - blockHeight` is exactly that value);
then transition to `confirmed` when `isConfirmed && status === 'pending'` —
the source's guard, kept verbatim even though `isConfirmed` itself demands
`status === 'confirmed'`.  Always stamps `lastSyncedAt` and `updatedAt`. -/
def BlockchainVote.updateConfirmations (v : BlockchainVote)
    (blockHeight currentBlockHeight : Nat) (now : Nat) : BlockchainVote :=
  let v1 :=
    if blockHeight ≠ 0 ∧ currentBlockHeight ≠ 0 then
      let v' := { v with blockHeight := some blockHeight,
                         confirmations := currentBlockHeight + 1 - blockHeight }
      if v'.isConfirmed && decide (v'.status = .pending) then
        { v' with status := .confirmed, confirmedAt := some now }
      else v'
    else v
  { v1 with lastSyncedAt := now, updatedAt := now }

/-- Method `markCounted` (BlockchainVote.js:236-241): advances to `counted`
only from `confirmed`. -/
def BlockchainVote.markCounted (v : BlockchainVote) (now : Nat) :
    BlockchainVote :=
  if v.status = .confirmed then
    { v with status := .counted, updatedAt := now }
  else v

/-- Method `markRewarded` (BlockchainVote.js:243-249): unconditionally sets
reward fields and `status = 'rewarded'`. -/
def BlockchainVote.markRewarded (v : BlockchainVote)
    (rewardAmount rewardTxHash : String) (now : Nat) : BlockchainVote :=
  { v with rewardAmount := some rewardAmount,
           rewardTxHash := some rewardTxHash,
           rewardClaimedAt := some now,
           status := .rewarded,
           updatedAt := now }

/-- Method `markFailed` (BlockchainVote.js:251-255): unconditionally sets
`status = 'failed'` and logs a sync error. -/
def BlockchainVote.markFailed (v : BlockchainVote) (error : String)
    (now : Nat) : BlockchainVote :=
  ({ v with status := .failed } : BlockchainVote).addSyncError error now

/-- Per-record filter of the static `findPendingConfirmation` query
(BlockchainVote.js:266-272): status `pending`, a transaction hash present,
and `confirmations < 3` (the literal of the query). -/
def pendingConfirmationFilter (v : BlockchainVote) : Bool :=
  decide (v.status = .pending) && v.txHash.isSome &&
  decide (v.confirmations < 3)

/-- Static `hasUserVoted` (BlockchainVote.js:320-326): the first stored vote
of this voter on this poll whose status is one of
`pending/confirmed/counted/rewarded`. -/
def hasUserVoted (votes : List BlockchainVote) (voterAddress : String)
    (blockchainPollId : Int) : Option BlockchainVote :=
  votes.find? (fun v =>
    decide (v.voterAddress = voterAddress) &&
    decide (v.blockchainPollId = blockchainPollId) &&
    (decide (v.status = .pending) || decide (v.status = .confirmed) ||
     decide (v.status = .counted) || decide (v.status = .rewarded)))

/-- Loop body of `syncVoteConfirmations` (blockchainSyncService.js:231-257)
for one query-selected vote: skip when no `txHash`; once the vote is older
than 120000 ms, run `updateConfirmations(12345, 12348)` (the source's mock
heights) and `markCounted` when the updated vote's `isConfirmed` holds. -/
def voteSweepStep (now : Nat) (v : BlockchainVote) : BlockchainVote :=
  if pendingConfirmationFilter v then
    if v.txHash = none then v
    else if 120000 < now - v.createdAt then
      let v' := v.updateConfirmations 12345 12348 now
      if v'.isConfirmed then v'.markCounted now else v'
    else v
  else v

/-- One run of `syncVoteConfirmations` (blockchainSyncService.js:226-263)
over the whole collection: votes matched by `findPendingConfirmation` go
through the loop body, all others are untouched. -/
def syncVoteConfirmations (now : Nat) (votes : List BlockchainVote) :
    List BlockchainVote :=
  votes.map (voteSweepStep now)

/-- Iterated confirmation sweeps at the instants listed in `ts`, followed
for one record. -/
def voteSweepIter (ts : List Nat) (v : BlockchainVote) : BlockchainVote :=
  ts.foldl (fun v t => voteSweepStep t v) v

/-- The unconditional compound unique index
`{ blockchainPollId: 1, voterAddress: 1 }, { unique: true }`
(BlockchainVote.js:168): a candidate insert collides when any stored vote —
whatever its status — shares the pair. -/
def uniqueIndexViolated (votes : List BlockchainVote) (v : BlockchainVote) :
    Bool :=
  votes.any (fun w =>
    decide (w.blockchainPollId = v.blockchainPollId) &&
    decide (w.voterAddress = v.voterAddress))

/-- Store-level error raised by a `save` that violates the unique index. -/
inductive StoreError where
  | duplicateKey
deriving DecidableEq, Repr

/-- `save` of a new BlockchainVote document against the store: modelled from
the schema's unique compound index declaration (BlockchainVote.js:168) — the
store rejects the insert with a duplicate-key error when the
(blockchainPollId, voterAddress) pair is already present. -/
def insertVote (votes : List BlockchainVote) (v : BlockchainVote) :
    Except StoreError (List BlockchainVote) :=
  if uniqueIndexViolated votes v then .error .duplicateKey
  else .ok (votes ++ [v])

/-- Error responses of `createVoteTransaction`
(blockchainController.js:281-345). -/
inductive VoteTxError where
  | missingFields
  | alreadyVoted
deriving DecidableEq, Repr

/-- `createVoteTransaction` (blockchainController.js:281-345), restricted to
its store effect: reject when a required field is falsy (the `parseInt`
validation is subsumed by typing `pollId : Int`); reject with the
duplicate-vote message when `hasUserVoted` finds a live vote, leaving the
store untouched; otherwise create a `pending` BlockchainVote with schema
defaults and the source's `voteId` string.  Returns the response paired with
the resulting store. -/
def createVoteTransaction (votes : List BlockchainVote) (pollId : Int)
    (optionId : Option Int) (voterAddress : String) (now : Nat) :
    Except VoteTxError String × List BlockchainVote :=
  if pollId = 0 ∨ optionId = none ∨ voterAddress = "" then
    (.error .missingFields, votes)
  else
    match hasUserVoted votes voterAddress pollId with
    | some _ => (.error .alreadyVoted, votes)
    | none =>
      let voteId := toString pollId ++ "_" ++ voterAddress ++ "_" ++
        toString now
      let newVote : BlockchainVote :=
        { voteId := voteId
          blockchainPollId := pollId
          voterAddress := voterAddress
          selectedOptionId := optionId.getD 0
          txHash := none
          blockHeight := none
          txTimestamp := none
          status := .pending
          confirmations := 0
          requiredConfirmations := 3
          confirmedAt := none
          rewardAmount := none
          rewardTxHash := none
          rewardClaimedAt := none
          isValid := true
          validationErrors := []
          syncErrors := []
          lastSyncedAt := now
          createdAt := now
          updatedAt := now }
      (.ok voteId, votes ++ [newVote])

/-- `confirmVote` (blockchainController.js:350-389), restricted to its store
effect: attach the reported transaction hash and timestamps to the vote with
that `voteId`, when both fields are truthy. -/
def confirmVote (votes : List BlockchainVote) (voteId txHash : String)
    (now : Nat) : List BlockchainVote :=
  if voteId = "" ∨ txHash = "" then votes
  else
    votes.map (fun v =>
      if v.voteId = voteId then
        { v with txHash := some txHash, txTimestamp := some now,
                 lastSyncedAt := now }
      else v)

/-- `status` enum of the AiGeneratedPoll schema. -/
inductive DraftStatus where
  | pending
  | registered
  | failed
deriving DecidableEq, Repr

/-- The AiGeneratedPoll document (the Draft), trimmed to the fields the
claims touch: identity, content, lifecycle `status` (default `pending`) and
the chain identifier (default null). -/
structure AiPoll where
  id : Nat
  subject : String
  description : String
  options : List String
  status : DraftStatus
  blockchainPollId : Option Int
deriving DecidableEq, Repr

/-- The BlockchainPoll document (the BlockchainPollSnapshot cache),
trimmed to the fields the claims touch. -/
structure BlockchainPoll where
  blockchainPollId : Int
  contractAddress : String
  creator : String
  optionCount : Nat
  startTime : Nat
  endTime : Nat
  isActive : Bool
  totalVotes : Nat
  lastSyncedAt : Nat
deriving DecidableEq, Repr

/-- Per-record filter of the expired-polls query of `updatePollStatuses`
(blockchainSyncService.js:273-276): `isActive: true, endTime: { $lt: now }`. -/
def expiredFilter (now : Nat) (p : BlockchainPoll) : Bool :=
  p.isActive && decide (p.endTime < now)

/-- Loop body of `updatePollStatuses` (blockchainSyncService.js:278-283) for
one matched poll: flip `isActive` and stamp `lastSyncedAt = now`. -/
def expireStep (now : Nat) (p : BlockchainPoll) : BlockchainPoll :=
  if expiredFilter now p then
    { p with isActive := false, lastSyncedAt := now }
  else p

/-- One run of `updatePollStatuses` / the expiry sweep
(blockchainSyncService.js:268-293) over the cache collection. -/
def updatePollStatuses (now : Nat) (polls : List BlockchainPoll) :
    List BlockchainPoll :=
  polls.map (expireStep now)

/-- The `aiData` body field accepted by the simple controller's
`storePollMetadata` (src/unnamed/part_002:137-172): an optional reference to
an existing draft (`aiData._id || aiData.id`) plus the content used when a
new draft record has to be created. -/
structure AiMeta where
  id : Option Nat
  subject : String
  description : String
  options : List String
deriving DecidableEq, Repr

/-- Draft effect of the simple controller's `storePollMetadata`
(src/unnamed/part_002:103-190): when `aiData` carries the id of an existing
draft, `findByIdAndUpdate` stamps `blockchainPollId` and `status:
'registered'` onto it; otherwise a fresh draft record is created already
carrying the chain identifier with status `registered`.  `freshId` stands
for the store-assigned `_id` of that fresh record. -/
def storeMetadataDrafts (drafts : List AiPoll) (blockchainPollId : Int)
    (aiData : Option AiMeta) (freshId : Nat) : List AiPoll :=
  match aiData with
  | none => drafts
  | some m =>
    match m.id with
    | some i =>
      if drafts.any (fun d => decide (d.id = i)) then
        drafts.map (fun d =>
          if d.id = i then
            { d with blockchainPollId := some blockchainPollId,
                     status := .registered }
          else d)
      else
        drafts ++ [{ id := freshId, subject := m.subject,
                     description := m.description, options := m.options,
                     status := .registered,
                     blockchainPollId := some blockchainPollId }]
    | none =>
      drafts ++ [{ id := freshId, subject := m.subject,
                   description := m.description, options := m.options,
                   status := .registered,
                   blockchainPollId := some blockchainPollId }]

/-- The persisted state the exposed operations act on: the three record
collections plus the snapshot cache. -/
structure ApiState where
  drafts : List AiPoll
  syncs : List PollSync
  votes : List BlockchainVote
  chainPolls : List BlockchainPoll
deriving DecidableEq, Repr

/-- `confirmPollRegistration` (src/unnamed/part_002:720-764): with truthy
`syncId` and `txHash` and a known sync record, `markRegistered` that record
and `findByIdAndUpdate` the owning draft with the chain identifier and
status `registered`. -/
def confirmPollRegistration (st : ApiState) (syncId : Nat) (txHash : String)
    (blockchainPollId : Int) (now : Nat) : ApiState :=
  if syncId = 0 ∨ txHash = "" then st
  else
    match st.syncs.find? (fun s => decide (s.id = syncId)) with
    | none => st
    | some sync =>
      { st with
        syncs := st.syncs.map (fun s =>
          if s.id = syncId then s.markRegistered blockchainPollId txHash now
          else s),
        drafts := st.drafts.map (fun d =>
          if d.id = sync.aiPollId then
            { d with blockchainPollId := some blockchainPollId,
                     status := .registered }
          else d) }

/-- `storePollMetadata` of the simple controller
(src/unnamed/part_002:103-190) on the state: with truthy `blockchainPollId`
and `transactionHash`, append the new snapshot record and apply the draft
effect. -/
def storePollMetadata (st : ApiState) (blockchainPollId : Int)
    (txHash : String) (contractAddress : String) (aiData : Option AiMeta)
    (freshId : Nat) (now : Nat) : ApiState :=
  if blockchainPollId = 0 ∨ txHash = "" then st
  else
    { st with
      chainPolls := st.chainPolls ++
        [{ blockchainPollId := blockchainPollId,
           contractAddress := contractAddress,
           creator := "", optionCount := 2, startTime := now,
           endTime := now + 7 * 24 * 3600 * 1000, isActive := true,
           totalVotes := 0, lastSyncedAt := now }],
      drafts := storeMetadataDrafts st.drafts blockchainPollId aiData
        freshId }

/-- The exposed operations of the reconciliation core, as modelled above:
the three scheduled sweeps and the four record-mutating endpoints. -/
inductive ApiOp where
  | confirmPollRegistration (syncId : Nat) (txHash : String)
      (blockchainPollId : Int) (now : Nat)
  | storePollMetadata (blockchainPollId : Int) (txHash : String)
      (contractAddress : String) (aiData : Option AiMeta) (freshId : Nat)
      (now : Nat)
  | createVoteTransaction (pollId : Int) (optionId : Option Int)
      (voterAddress : String) (now : Nat)
  | confirmVote (voteId txHash : String) (now : Nat)
  | registrationSweep (now : Nat)
  | voteConfirmationSweep (now : Nat)
  | pollStatusSweep (now : Nat)

/-- State transition of each exposed operation.  The registration sweep's
`populate('aiPollId')` resolves against the draft collection of the same
state. -/
def applyOp (op : ApiOp) (st : ApiState) : ApiState :=
  match op with
  | .confirmPollRegistration syncId txHash pollId now =>
      confirmPollRegistration st syncId txHash pollId now
  | .storePollMetadata pollId txHash addr aiData freshId now =>
      storePollMetadata st pollId txHash addr aiData freshId now
  | .createVoteTransaction pollId optionId voter now =>
      { st with
        votes := (createVoteTransaction st.votes pollId optionId voter
          now).2 }
  | .confirmVote voteId txHash now =>
      { st with votes := confirmVote st.votes voteId txHash now }
  | .registrationSweep now =>
      { st with syncs := (processPendingRegistrations
          (fun i => st.drafts.any (fun d => decide (d.id = i))) now
          st.syncs) }
  | .voteConfirmationSweep now =>
      { st with votes := syncVoteConfirmations now st.votes }
  | .pollStatusSweep now =>
      { st with chainPolls := updatePollStatuses now st.chainPolls }

/-- The two operations through which a Draft can acquire a chain
identifier. -/
def opSetsDraftChainId (op : ApiOp) : Bool :=
  match op with
  | .confirmPollRegistration _ _ _ _ => true
  | .storePollMetadata _ _ _ _ _ _ => true
  | _ => false

/-- The retryConfig schema defaults: multiplier 2, cap 1 h, base 60 s. -/
def defaultRetryConfig : RetryConfig :=
  { backoffMultiplier := 2, maxRetryDelay := 3600000,
    baseRetryDelay := 60000 }

/-- A freshly created PollSync record with the schema defaults. -/
def basePollSync : PollSync :=
  { id := 1, aiPollId := 1, blockchainPollId := none,
    syncStatus := .pending, registrationAttempts := 0,
    maxRegistrationAttempts := 3, registrationTxHash := none,
    registrationTxPayload := none, contractAddress := none,
    lastAttemptAt := none, registeredAt := none, lastSyncAt := none,
    nextRetryAt := none, errors := [], retryConfig := defaultRetryConfig,
    createdAt := 0, updatedAt := 0 }

/-- An exhausted record whose configured maximum is 2, below the query's
hard-coded 3. -/
def c1Record : PollSync :=
  { basePollSync with syncStatus := .failed, registrationAttempts := 2,
                      maxRegistrationAttempts := 2 }

/-- An exhausted record at the default maximum 3. -/
def c1Exhausted : PollSync :=
  { basePollSync with syncStatus := .failed, registrationAttempts := 3 }

/-- A failed record that is due for a retry. -/
def c2Retryable : PollSync :=
  { basePollSync with syncStatus := .failed, registrationAttempts := 1 }

/-- A freshly created BlockchainVote of voter "V1" on poll 7 with the
schema defaults. -/
def baseVote : BlockchainVote :=
  { voteId := "7_V1_0", blockchainPollId := 7, voterAddress := "V1",
    selectedOptionId := 1, txHash := none, blockHeight := none,
    txTimestamp := none, status := .pending, confirmations := 0,
    requiredConfirmations := 3, confirmedAt := none, rewardAmount := none,
    rewardTxHash := none, rewardClaimedAt := none, isValid := true,
    validationErrors := [], syncErrors := [], lastSyncedAt := 0,
    createdAt := 0, updatedAt := 0 }

/-- A pending vote with a reported transaction hash. -/
def c3Vote : BlockchainVote := { baseVote with txHash := some "0xabc" }

/-- A vote in the terminal `rewarded` status. -/
def c6Vote : BlockchainVote := { baseVote with status := .rewarded }

/-- A vote of the (7, "V1") pair whose attempt ended in `failed`. -/
def c10Failed : BlockchainVote := { baseVote with status := .failed }

/-- A cached snapshot that is active but already past its end time at
`now = 200`. -/
def basePoll : BlockchainPoll :=
  { blockchainPollId := 7, contractAddress := "EQC", creator := "A",
    optionCount := 2, startTime := 0, endTime := 100, isActive := true,
    totalVotes := 0, lastSyncedAt := 0 }

/-- A pending Draft with no chain identifier. -/
def baseDraft : AiPoll :=
  { id := 1, subject := "S", description := "D", options := ["A", "B"],
    status := .pending, blockchainPollId := none }

/-- AI metadata referencing the existing draft 1. -/
def c7Meta : AiMeta :=
  { id := some 1, subject := "S", description := "D",
    options := ["A", "B"] }

/-- A state holding just the pending draft. -/
def st0 : ApiState :=
  { drafts := [baseDraft], syncs := [], votes := [], chainPolls := [] }

/-! Helper lemmas shared by the claim theorems. -/

theorem canRetry_eq_false_of_exhausted (s : PollSync) (now : Nat)
    (h : s.maxRegistrationAttempts ≤ s.registrationAttempts) :
    s.canRetry now = false := by
  have h' : ¬ s.registrationAttempts < s.maxRegistrationAttempts :=
    Nat.not_lt.mpr h
  simp [PollSync.canRetry, h']

theorem canRetry_eq_false_of_status (s : PollSync) (now : Nat)
    (h : s.syncStatus ≠ .failed) : s.canRetry now = false := by
  simp [PollSync.canRetry, h]

theorem attempts_lt_of_canRetry (s : PollSync) (now : Nat)
    (h : s.canRetry now = true) :
    s.registrationAttempts < s.maxRegistrationAttempts := by
  simp only [PollSync.canRetry, Bool.and_eq_true, decide_eq_true_eq] at h
  exact h.1.1

theorem incrementAttempt_counters (s : PollSync) (now : Nat) :
    (s.incrementAttempt now).registrationAttempts =
      s.registrationAttempts + 1 ∧
    (s.incrementAttempt now).maxRegistrationAttempts =
      s.maxRegistrationAttempts ∧
    (s.incrementAttempt now).lastAttemptAt = some now ∧
    (s.incrementAttempt now).syncStatus = .failed := by
  by_cases h : s.maxRegistrationAttempts ≤ s.registrationAttempts + 1 <;>
    simp [PollSync.incrementAttempt, h]

theorem pendingRegistrationFilter_false_of_ge3 (s : PollSync) (now : Nat)
    (h : 3 ≤ s.registrationAttempts) :
    pendingRegistrationFilter s now = false := by
  have h' : ¬ s.registrationAttempts < 3 := Nat.not_lt.mpr h
  simp [pendingRegistrationFilter, h']

theorem regSweepStep_eq_self_of_exhausted (aiExists : Nat → Bool)
    (now : Nat) (s : PollSync)
    (h : s.maxRegistrationAttempts ≤ s.registrationAttempts) :
    regSweepStep aiExists now s = s := by
  unfold regSweepStep processOnePollSync
  simp [canRetry_eq_false_of_exhausted s now h]

theorem isConfirmed_and_pending_false (v : BlockchainVote) :
    (v.isConfirmed && decide (v.status = .pending)) = false := by
  by_cases h : v.status = .confirmed <;>
    simp [BlockchainVote.isConfirmed, h]

theorem updateConfirmations_status (v : BlockchainVote)
    (bh cur now : Nat) :
    (v.updateConfirmations bh cur now).status = v.status := by
  unfold BlockchainVote.updateConfirmations
  by_cases h : bh ≠ 0 ∧ cur ≠ 0 <;>
    simp [h, isConfirmed_and_pending_false]

theorem voteSweepStep_eq_self_of_no_txhash (now : Nat)
    (v : BlockchainVote) (h : v.txHash = none) :
    voteSweepStep now v = v := by
  unfold voteSweepStep
  simp [pendingConfirmationFilter, h]

theorem expireStep_expireStep (now : Nat) (p : BlockchainPoll) :
    expireStep now (expireStep now p) = expireStep now p := by
  by_cases h : expiredFilter now p = true
  · have h2 : expiredFilter now
        { p with isActive := false, lastSyncedAt := now } = false := by
      simp [expiredFilter]
    simp [expireStep, h, h2]
  · simp [expireStep, h]

/-! The claim theorems. -/

/-- C3: the confirmation-sweep update does set
`confirmations = max(0, headHeight - txHeight + 1)`, but the
pending-to-confirmed transition never fires: on a pending vote with 11
confirmations (threshold 3) the status stays `pending` and `confirmedAt`
stays null, because `updateConfirmations`' guard
`isConfirmed && status === 'pending'` is unsatisfiable — the `isConfirmed`
virtual itself requires `status === 'confirmed'`. -/
theorem c3_confirmation_transition_dead :
    ((c3Vote.updateConfirmations 10 20 999).confirmations = 11) ∧
    (c3Vote.requiredConfirmations ≤
      (c3Vote.updateConfirmations 10 20 999).confirmations) ∧
    ((c3Vote.updateConfirmations 10 20 999).status = VoteStatus.pending) ∧
    ((c3Vote.updateConfirmations 10 20 999).confirmedAt = none) ∧
    (∀ v : BlockchainVote,
      (v.isConfirmed && decide (v.status = .pending)) = false) :=
  ⟨by decide, by decide, by decide, by decide,
   fun v => isConfirmed_and_pending_false v⟩

/-- C5: when the incremented attempt counter stays below the record's
maximum, `incrementAttempt` sets status `failed` and
`nextRetryAt = now + min(maxRetryDelay, baseRetryDelay * multiplier ^
attempts)` with `attempts` the incremented counter; under a positive retry
configuration (the defaults are base 60000 ms, multiplier 2, cap
3600000 ms) that instant is strictly after `now`. -/
theorem c5_backoff_formula (s : PollSync) (now : Nat)
    (h : s.registrationAttempts + 1 < s.maxRegistrationAttempts)
    (hbase : 0 < s.retryConfig.baseRetryDelay)
    (hmult : 0 < s.retryConfig.backoffMultiplier)
    (hcap : 0 < s.retryConfig.maxRetryDelay) :
    (s.incrementAttempt now).syncStatus = .failed ∧
    (s.incrementAttempt now).nextRetryAt =
      some (now + min s.retryConfig.maxRetryDelay
        (s.retryConfig.baseRetryDelay *
          s.retryConfig.backoffMultiplier ^ (s.registrationAttempts + 1))) ∧
    (∀ t, (s.incrementAttempt now).nextRetryAt = some t → now < t) := by
  have hnot : ¬ s.maxRegistrationAttempts ≤ s.registrationAttempts + 1 :=
    Nat.not_le.mpr h
  have hretry : (s.incrementAttempt now).nextRetryAt =
      some (now + min s.retryConfig.maxRetryDelay
        (s.retryConfig.baseRetryDelay *
          s.retryConfig.backoffMultiplier ^ (s.registrationAttempts + 1))) := by
    simp [PollSync.incrementAttempt, hnot, PollSync.currentRetryDelay,
      Nat.min_comm]
  refine ⟨(incrementAttempt_counters s now).2.2.2, hretry, ?_⟩
  intro t ht
  rw [hretry] at ht
  obtain rfl := Option.some.inj ht
  have hpos : 0 < min s.retryConfig.maxRetryDelay
      (s.retryConfig.baseRetryDelay *
        s.retryConfig.backoffMultiplier ^ (s.registrationAttempts + 1)) :=
    lt_min_iff.mpr ⟨hcap, Nat.mul_pos hbase (Nat.pos_pow_of_pos _ hmult)⟩
  exact Nat.lt_add_of_pos_right hpos

/-- C5 witness: a fresh record with the default configuration, incremented
at `now = 1000`, backs off to `1000 + min(3600000, 60000 * 2^1)`. -/
theorem c5_backoff_formula_witness :
    (basePollSync.incrementAttempt 1000).syncStatus = .failed ∧
    (basePollSync.incrementAttempt 1000).nextRetryAt =
      some (1000 + min 3600000 (60000 * 2 ^ 1)) ∧
    (∀ t, (basePollSync.incrementAttempt 1000).nextRetryAt = some t →
      1000 < t) :=
  c5_backoff_formula basePollSync 1000 (by decide) (by decide) (by decide)
    (by decide)

/-- C6 counterexample: `markFailed` on a vote in the terminal `rewarded`
status moves it to `failed` — the status lattice is not respected, `failed`
is reachable from a state other than `pending`, and a terminal state is
exited. -/
theorem c6_terminal_escape_counterexample :
    c6Vote.status = VoteStatus.rewarded ∧
    (c6Vote.markFailed ("relayer error") 5).status = VoteStatus.failed :=
  ⟨rfl, rfl⟩

/-- C6 amended: `markCounted` advances only `confirmed → counted` and
`updateConfirmations` never changes the status (its confirm branch is
unsatisfiable), but `markRewarded`, `markFailed` and `addValidationError`
set `rewarded`, `failed` and `invalid` unconditionally, from any current
status — so `failed`/`invalid` are reachable from every state and terminal
states can be exited. -/
theorem c6_status_transitions_amended (v : BlockchainVote)
    (amount txh err verr : String) (bh cur now : Nat) :
    ((v.markCounted now).status =
      if v.status = .confirmed then VoteStatus.counted else v.status) ∧
    ((v.updateConfirmations bh cur now).status = v.status) ∧
    ((v.markRewarded amount txh now).status = VoteStatus.rewarded) ∧
    ((v.markFailed err now).status = VoteStatus.failed) ∧
    ((v.addValidationError verr now).status = VoteStatus.invalid) := by
  refine ⟨?_, updateConfirmations_status v bh cur now, rfl, rfl, rfl⟩
  by_cases h : v.status = .confirmed <;> simp [BlockchainVote.markCounted, h]

/-- C8: a vote with no transaction hash is never matched by
`findPendingConfirmation` and is left untouched — all fields, status
included — by any number of confirmation sweeps at any instants. -/
theorem c8_no_txhash_never_swept (v : BlockchainVote) (ts : List Nat)
    (h : v.txHash = none) :
    pendingConfirmationFilter v = false ∧
    voteSweepIter ts v = v ∧
    (voteSweepIter ts v).status = v.status := by
  have hiter : voteSweepIter ts v = v := by
    induction ts with
    | nil => rfl
    | cons t ts ih =>
      unfold voteSweepIter at ih ⊢
      rw [List.foldl_cons]
      show List.foldl _ (voteSweepStep t v) ts = v
      rw [voteSweepStep_eq_self_of_no_txhash t v h]
      exact ih
  refine ⟨?_, hiter, by rw [hiter]⟩
  simp [pendingConfirmationFilter, h]

/-- C8 witness: the fresh vote (no txHash) survives two sweeps unchanged. -/
theorem c8_no_txhash_never_swept_witness :
    pendingConfirmationFilter baseVote = false ∧
    voteSweepIter [130000, 500000] baseVote = baseVote ∧
    (voteSweepIter [130000, 500000] baseVote).status = baseVote.status :=
  c8_no_txhash_never_swept baseVote [130000, 500000] rfl

/-- C9: the expiry sweep is idempotent — a second `updatePollStatuses` run
at the same instant returns the store unchanged, and after one run no
cached snapshot matches the expired-polls query any more. -/
theorem c9_expiry_sweep_idempotent (now : Nat)
    (polls : List BlockchainPoll) :
    updatePollStatuses now (updatePollStatuses now polls) =
      updatePollStatuses now polls ∧
    (∀ p ∈ updatePollStatuses now polls, expiredFilter now p = false) := by
  constructor
  · induction polls with
    | nil => rfl
    | cons p ps ih =>
      simp only [updatePollStatuses, List.map_cons] at ih ⊢
      rw [expireStep_expireStep, ih]
  · intro p hp
    unfold updatePollStatuses at hp
    rcases List.mem_map.mp hp with ⟨q, _, rfl⟩
    by_cases h : expiredFilter now q = true
    · have h2 : expiredFilter now
          { q with isActive := false, lastSyncedAt := now } = false := by
        simp [expiredFilter]
      simp [expireStep, h, h2]
    · simp [expireStep, h]

/-- C9 witness: one sweep at `now = 200` flips the expired snapshot; the
second sweep changes nothing and the flipped snapshot no longer matches. -/
theorem c9_expiry_sweep_idempotent_witness :
    updatePollStatuses 200 (updatePollStatuses 200 [basePoll]) =
      updatePollStatuses 200 [basePoll] ∧
    expiredFilter 200 (expireStep 200 basePoll) = false :=
  ⟨(c9_expiry_sweep_idempotent 200 [basePoll]).1,
   (c9_expiry_sweep_idempotent 200 [basePoll]).2 (expireStep 200 basePoll)
     (by simp [updatePollStatuses])⟩

/-- One registration-sweep step either leaves the record alone, logs the
missing-draft validation error, or increments the attempt — the last two
only when `canRetry` held. -/
theorem regSweepStep_cases (aiExists : Nat → Bool) (now : Nat)
    (s : PollSync) :
    regSweepStep aiExists now s = s ∨
    (regSweepStep aiExists now s =
        s.addError .validation ("AI poll not found") now ∧
      s.canRetry now = true) ∨
    (regSweepStep aiExists now s = s.incrementAttempt now ∧
      s.canRetry now = true) := by
  unfold regSweepStep processOnePollSync
  by_cases hf : pendingRegistrationFilter s now = true
  · by_cases hc : s.canRetry now = true
    · by_cases ha : aiExists s.aiPollId = true
      · right; right; exact ⟨by simp [hf, hc, ha], hc⟩
      · right; left; exact ⟨by simp [hf, hc, ha], hc⟩
    · left; simp [hf, hc]
  · left; simp [hf]

/-- C1 counterexample: an exhausted record whose configured maximum is 2 —
`attempts = max = 2`, status `failed`, `nextRetryAt` null — IS still
matched by `findPendingRegistration`, whose `registrationAttempts < 3`
bound is the literal 3 and not the record's configured maximum. -/
theorem c1_selection_counterexample :
    c1Record.registrationAttempts = c1Record.maxRegistrationAttempts ∧
    c1Record.syncStatus = SyncStatus.failed ∧
    c1Record.nextRetryAt = none ∧
    pendingRegistrationFilter c1Record 0 = true := by decide

/-- C1 amended: the sweep never pushes `attempts` beyond the record's
maximum; `incrementAttempt` reaching the maximum pins status `failed` with
`nextRetryAt` cleared; an exhausted record is no longer matched by
`findPendingRegistration` provided its configured maximum is at least 3
(the query hard-codes `attempts < 3`), and — selected or not — no sweep
step modifies it again, because `canRetry` fails. -/
theorem c1_attempts_capped_amended (aiExists : Nat → Bool) (now t : Nat)
    (s : PollSync)
    (hb : s.registrationAttempts ≤ s.maxRegistrationAttempts) :
    ((regSweepStep aiExists now s).registrationAttempts ≤
      (regSweepStep aiExists now s).maxRegistrationAttempts) ∧
    (s.maxRegistrationAttempts ≤ s.registrationAttempts + 1 →
      (s.incrementAttempt t).syncStatus = .failed ∧
      (s.incrementAttempt t).nextRetryAt = none) ∧
    (s.maxRegistrationAttempts ≤ s.registrationAttempts →
      (3 ≤ s.maxRegistrationAttempts →
        pendingRegistrationFilter s now = false) ∧
      regSweepStep aiExists now s = s) := by
  refine ⟨?_, ?_, ?_⟩
  · rcases regSweepStep_cases aiExists now s with h | ⟨h, _⟩ | ⟨h, hc⟩
    · rw [h]; exact hb
    · rw [h]; exact hb
    · rw [h, (incrementAttempt_counters s now).1,
        (incrementAttempt_counters s now).2.1]
      exact Nat.succ_le_of_lt (attempts_lt_of_canRetry s now hc)
  · intro hm
    constructor <;> simp [PollSync.incrementAttempt, hm]
  · intro hm
    exact ⟨fun h3 =>
        pendingRegistrationFilter_false_of_ge3 s now (le_trans h3 hm),
      regSweepStep_eq_self_of_exhausted aiExists now s hm⟩

/-- C1 witness: an exhausted record at the default maximum 3. -/
theorem c1_attempts_capped_witness :
    ((regSweepStep (fun _ => true) 0 c1Exhausted).registrationAttempts ≤
      (regSweepStep (fun _ => true) 0 c1Exhausted).maxRegistrationAttempts) ∧
    (c1Exhausted.maxRegistrationAttempts ≤
        c1Exhausted.registrationAttempts + 1 →
      (c1Exhausted.incrementAttempt 9).syncStatus = .failed ∧
      (c1Exhausted.incrementAttempt 9).nextRetryAt = none) ∧
    (c1Exhausted.maxRegistrationAttempts ≤
        c1Exhausted.registrationAttempts →
      (3 ≤ c1Exhausted.maxRegistrationAttempts →
        pendingRegistrationFilter c1Exhausted 0 = false) ∧
      regSweepStep (fun _ => true) 0 c1Exhausted = c1Exhausted) :=
  c1_attempts_capped_amended (fun _ => true) 0 9 c1Exhausted (by decide)

/-- C2 counterexample: a freshly created record — status `pending`,
`attempts = 0`, no retry delay — is returned by the eligibility query, yet
the sweep leaves it completely unchanged: neither the counter nor
`lastAttemptAt` is stamped, because the loop's `canRetry` guard demands
status `failed`. -/
theorem c2_pending_skipped_counterexample :
    pendingRegistrationFilter basePollSync 0 = true ∧
    basePollSync.syncStatus = SyncStatus.pending ∧
    regSweepStep (fun _ => true) 0 basePollSync = basePollSync ∧
    (regSweepStep (fun _ => true) 0 basePollSync).registrationAttempts =
      0 ∧
    (regSweepStep (fun _ => true) 0 basePollSync).lastAttemptAt = none := by
  decide

/-- C2 amended: among the query-selected records, the sweep increments the
counter and stamps `lastAttemptAt` exactly for those that also pass
`canRetry` — status `failed` (not `pending`), attempts below the record's
own maximum, retry delay elapsed — and whose referenced draft exists;
selected records in status `pending` are skipped unchanged. -/
theorem c2_increment_only_when_canRetry (aiExists : Nat → Bool) (now : Nat)
    (s : PollSync) (hsel : pendingRegistrationFilter s now = true) :
    (s.canRetry now = true → aiExists s.aiPollId = true →
      regSweepStep aiExists now s = s.incrementAttempt now ∧
      (regSweepStep aiExists now s).registrationAttempts =
        s.registrationAttempts + 1 ∧
      (regSweepStep aiExists now s).lastAttemptAt = some now) ∧
    (s.syncStatus = .pending → regSweepStep aiExists now s = s) := by
  constructor
  · intro hc ha
    have heq : regSweepStep aiExists now s = s.incrementAttempt now := by
      unfold regSweepStep processOnePollSync
      simp [hsel, hc, ha]
    exact ⟨heq, by rw [heq]; exact (incrementAttempt_counters s now).1,
      by rw [heq]; exact (incrementAttempt_counters s now).2.2.1⟩
  · intro hp
    have hc : s.canRetry now = false :=
      canRetry_eq_false_of_status s now (by simp [hp])
    unfold regSweepStep processOnePollSync
    simp [hsel, hc]

/-- C2 witness: a due `failed` record is incremented and stamped. -/
theorem c2_increment_only_when_canRetry_witness :
    ((c2Retryable.canRetry 0) = true → (fun _ : Nat => true)
        c2Retryable.aiPollId = true →
      regSweepStep (fun _ => true) 0 c2Retryable =
        c2Retryable.incrementAttempt 0 ∧
      (regSweepStep (fun _ => true) 0 c2Retryable).registrationAttempts =
        c2Retryable.registrationAttempts + 1 ∧
      (regSweepStep (fun _ => true) 0 c2Retryable).lastAttemptAt =
        some 0) ∧
    (c2Retryable.syncStatus = .pending →
      regSweepStep (fun _ => true) 0 c2Retryable = c2Retryable) :=
  c2_increment_only_when_canRetry (fun _ => true) 0 c2Retryable (by decide)

/-- C4: whenever the store already holds a vote of the same
(poll, voter) pair in one of the live statuses
`pending/confirmed/counted/rewarded`, a well-formed vote-submission
request is rejected with the already-voted error and the store is
returned unchanged — no new VoteAttempt is created. -/
theorem c4_duplicate_vote_rejected (votes : List BlockchainVote)
    (pollId : Int) (optionId : Int) (voter : String) (now : Nat)
    (hpoll : pollId ≠ 0) (hvoter : voter ≠ "")
    (w : BlockchainVote) (hw : w ∈ votes)
    (hwv : w.voterAddress = voter) (hwp : w.blockchainPollId = pollId)
    (hlive : w.status = .pending ∨ w.status = .confirmed ∨
      w.status = .counted ∨ w.status = .rewarded) :
    (createVoteTransaction votes pollId (some optionId) voter now).1 =
      .error .alreadyVoted ∧
    (createVoteTransaction votes pollId (some optionId) voter now).2 =
      votes := by
  have hpred : (decide (w.voterAddress = voter) &&
      decide (w.blockchainPollId = pollId) &&
      (decide (w.status = .pending) || decide (w.status = .confirmed) ||
       decide (w.status = .counted) || decide (w.status = .rewarded)))
      = true := by
    rcases hlive with h | h | h | h <;> simp [hwv, hwp, h]
  have hsome : (hasUserVoted votes voter pollId).isSome = true := by
    rw [hasUserVoted]
    exact List.find?_isSome.mpr ⟨w, hw, hpred⟩
  obtain ⟨r, hr⟩ := Option.isSome_iff_exists.mp hsome
  have hcond : ¬(pollId = 0 ∨ (some optionId : Option Int) = none ∨
      voter = "") := by
    simp [hpoll, hvoter]
  unfold createVoteTransaction
  rw [if_neg hcond, hr]
  exact ⟨rfl, rfl⟩

/-- C4 witness: with the pending vote of voter "V1" on poll 7 stored, a
second submission of the same pair is rejected and the store stays as it
was. -/
theorem c4_duplicate_vote_rejected_witness :
    (createVoteTransaction [baseVote] 7 (some 1) ("V1") 99).1 =
      .error .alreadyVoted ∧
    (createVoteTransaction [baseVote] 7 (some 1) ("V1") 99).2 =
      [baseVote] :=
  c4_duplicate_vote_rejected [baseVote] 7 1 ("V1") 99 (by decide)
    (by decide) baseVote (by simp) rfl rfl (Or.inl rfl)

/-- C7 counterexample: `storePollMetadata` with AI data referencing the
pending draft 1 stamps `blockchainPollId = 7` and status `registered` onto
that draft — a Draft acquires its chain identifier through an operation
other than `confirmPollRegistration`. -/
theorem c7_storePollMetadata_counterexample :
    baseDraft.blockchainPollId = none ∧
    (applyOp (.storePollMetadata 7 ("0xabc") ("EQC") (some c7Meta) 2 0)
        st0).drafts =
      [{ baseDraft with blockchainPollId := some 7,
                        status := .registered }] := by
  decide

/-- C7 amended: a Draft acquires a chain identifier only through
`confirmPollRegistration` or `storePollMetadata` — every other exposed
operation leaves the Draft collection untouched. -/
theorem c7_draft_chain_id_writers_amended (op : ApiOp) (st : ApiState)
    (h : (applyOp op st).drafts ≠ st.drafts) :
    opSetsDraftChainId op = true := by
  cases op with
  | confirmPollRegistration a b c d => rfl
  | storePollMetadata a b c d e f => rfl
  | createVoteTransaction a b c d => exact absurd rfl h
  | confirmVote a b c => exact absurd rfl h
  | registrationSweep a => exact absurd rfl h
  | voteConfirmationSweep a => exact absurd rfl h
  | pollStatusSweep a => exact absurd rfl h

/-- C7 witness: the metadata-store operation that changed the draft store
of `st0` is one of the two chain-identifier writers. -/
theorem c7_draft_chain_id_writers_witness :
    opSetsDraftChainId
      (.storePollMetadata 7 ("0xabc") ("EQC") (some c7Meta) 2 0) = true :=
  c7_draft_chain_id_writers_amended
    (.storePollMetadata 7 ("0xabc") ("EQC") (some c7Meta) 2 0) st0
    (by decide)

/-- C10: when every stored vote of a (poll, voter) pair is dead (`failed`
or `invalid`), the application-level duplicate check `hasUserVoted` finds
nothing — so `createVoteTransaction` would proceed — yet inserting a new
vote of that pair is rejected by the store's unconditional compound unique
index. -/
theorem c10_unique_index_blocks_dead_pair (votes : List BlockchainVote)
    (pollId : Int) (voter : String) (w v : BlockchainVote)
    (hw : w ∈ votes) (hwp : w.blockchainPollId = pollId)
    (hwv : w.voterAddress = voter)
    (hdead : ∀ u ∈ votes, u.blockchainPollId = pollId →
      u.voterAddress = voter →
      (u.status = .failed ∨ u.status = .invalid))
    (hvp : v.blockchainPollId = pollId) (hvv : v.voterAddress = voter) :
    hasUserVoted votes voter pollId = none ∧
    insertVote votes v = .error .duplicateKey := by
  constructor
  · rw [hasUserVoted, List.find?_eq_none]
    intro u hu
    by_cases h1 : u.voterAddress = voter
    · by_cases h2 : u.blockchainPollId = pollId
      · rcases hdead u hu h2 h1 with h | h <;> simp [h1, h2, h]
      · simp [h2]
    · simp [h1]
  · have hviol : uniqueIndexViolated votes v = true := by
      rw [uniqueIndexViolated, List.any_eq_true]
      exact ⟨w, hw, by simp [hwp, hwv, hvp, hvv]⟩
    simp [insertVote, hviol]

/-- C10 witness: after the (7, "V1") attempt failed, `hasUserVoted` would
permit a new vote of the pair but the unique index rejects the insert. -/
theorem c10_unique_index_blocks_dead_pair_witness :
    hasUserVoted [c10Failed] ("V1") 7 = none ∧
    insertVote [c10Failed] baseVote = .error .duplicateKey :=
  c10_unique_index_blocks_dead_pair [c10Failed] 7 ("V1") c10Failed
    baseVote (by simp) rfl rfl (by decide) rfl rfl

end TPolls
